import Mathlib

/-!
Shallow embedding of the FacilityAI booking backend (src/main.py, src/schemas.py):
the schedule-slot data model, the availability query, the booking-creation flow,
and the payment-link stub, together with proofs of the specification claims.

Timestamps are modelled as `Int` seconds since the Unix epoch (Python `datetime`
values compare and add like this under `timedelta` arithmetic).  Store documents
are Lean structures; a field that may be absent from a raw document is an
`Option`.  The document-store adapter (`database.py`) is not part of the source
tree, so it is modelled from the specification's description of its interface.
-/

set_option autoImplicit false

namespace FacilityAI

/-! ## Date-time model: `datetime.fromisoformat` and epoch arithmetic -/

/-- Gregorian leap-year test, as `calendar.isleap` / `datetime` use. -/
def isLeap (y : Nat) : Bool :=
  y % 4 == 0 && (y % 100 != 0 || y % 400 == 0)

/-- Number of days in month `m` (1-12) of year `y`. -/
def daysInMonth (y m : Nat) : Nat :=
  match m with
  | 1 => 31 | 2 => if isLeap y then 29 else 28 | 3 => 31
  | 4 => 30 | 5 => 31 | 6 => 30
  | 7 => 31 | 8 => 31 | 9 => 30
  | 10 => 31 | 11 => 30 | 12 => 31
  | _ => 0

/-- Days from the Unix epoch (1970-01-01) to the civil date `y-m-d`
(standard civil-from-days algorithm; valid for years 1..9999). -/
def daysFromCivil (y m d : Nat) : Int :=
  let y' := if m ≤ 2 then y - 1 else y
  let era := y' / 400
  let yoe := y' % 400
  let mp := if m > 2 then m - 3 else m + 9
  let doy := (153 * mp + 2) / 5 + d - 1
  let doe := yoe * 365 + yoe / 4 - yoe / 100 + doy
  ((era * 146097 + doe : Nat) : Int) - 719468

/-- Value of a decimal digit character. -/
def digitVal (c : Char) : Option Nat :=
  if c.isDigit then some (c.toNat - 48) else none

/-- Read exactly two digits from the front of a character list. -/
def parse2 : List Char → Option (Nat × List Char)
  | c1 :: c2 :: rest => do
      let d1 ← digitVal c1
      let d2 ← digitVal c2
      pure (d1 * 10 + d2, rest)
  | _ => none

/-- Read exactly four digits from the front of a character list. -/
def parse4 : List Char → Option (Nat × List Char)
  | c1 :: c2 :: c3 :: c4 :: rest => do
      let d1 ← digitVal c1
      let d2 ← digitVal c2
      let d3 ← digitVal c3
      let d4 ← digitVal c4
      pure (((d1 * 10 + d2) * 10 + d3) * 10 + d4, rest)
  | _ => none

/-- Require character `c` at the front of the list. -/
def expectChar (c : Char) : List Char → Option (List Char)
  | x :: rest => if x = c then some rest else none
  | [] => none

/-- Parse the optional `HH[:MM[:SS]]` time part accepted by
`datetime.fromisoformat` after the separator character; returns seconds
past midnight. -/
def parseTimePart (cs : List Char) : Option Nat := do
  let (hh, cs) ← parse2 cs
  if hh ≥ 24 then none else
  match cs with
  | [] => pure (hh * 3600)
  | _ => do
    let cs ← expectChar ':' cs
    let (mm, cs) ← parse2 cs
    if mm ≥ 60 then none else
    match cs with
    | [] => pure (hh * 3600 + mm * 60)
    | _ => do
      let cs ← expectChar ':' cs
      let (ss, cs) ← parse2 cs
      if ss ≥ 60 then none else
      match cs with
      | [] => pure (hh * 3600 + mm * 60 + ss)
      | _ => none

/-- Model of Python `datetime.fromisoformat`: accepts `YYYY-MM-DD`, optionally
followed by a one-character separator and a time part `HH[:MM[:SS]]`; a bare
date parses to midnight of that day.  Returns seconds since the Unix epoch. -/
def fromisoformat (s : String) : Option Int := do
  let cs := s.toList
  let (y, cs) ← parse4 cs
  let cs ← expectChar '-' cs
  let (m, cs) ← parse2 cs
  let cs ← expectChar '-' cs
  let (d, cs) ← parse2 cs
  if y = 0 then none else
  if m = 0 ∨ m > 12 then none else
  if d = 0 ∨ d > daysInMonth y m then none else
  let base : Int := daysFromCivil y m d * 86400
  match cs with
  | [] => pure base
  | _sep :: rest => do
      let secs ← parseTimePart rest
      pure (base + (secs : Int))

/-! ## Store documents (src/schemas.py shapes, as raw documents) -/

/-- A stored `scheduleslot` document.  `sid` is the store-generated `_id`;
`remaining` is `none` when the raw document lacks the field (the code reads it
with `slot.get("remaining", 1)`). -/
structure SlotRec where
  sid : Nat
  service_id : Option String := none
  staff_id : Option String := none
  start_time : Int
  end_time : Int
  remaining : Option Int := some 1
  status : String := "open"
  deriving Repr, DecidableEq

/-- A stored `booking` document, as built by `create_booking_api`. -/
structure BookingRec where
  customer_id : String
  service_id : String
  staff_id : Option String
  start_time : Int
  end_time : Int
  status : String
  quantity : Int
  price_cents : Int
  source : String
  notes : Option String
  schedule_slot_id : Option String
  deriving Repr, DecidableEq

/-- A stored `paymentlink` document, as built by `create_payment_link`. -/
structure PaymentLinkRec where
  customer_id : String
  amount_cents : Int
  currency : String
  description : Option String
  status : String
  token : String
  url : String
  expires_at : Int
  deriving Repr, DecidableEq

/-- The document store: the three collections this code touches. -/
structure Store where
  scheduleslot : List SlotRec := []
  booking : List BookingRec := []
  paymentlink : List PaymentLinkRec := []
  deriving Repr, DecidableEq

/-! ## Document-store adapter -/

/-- Modelled from the spec: `database.py` is not under src/; §6 describes the
adapter's `query(collection, filter, limit) -> records` as a filtered read
returning stored records matching the filter, up to `limit`, in store order. -/
def get_documents {α : Type} (coll : List α) (p : α → Bool) (limit : Nat) : List α :=
  (coll.filter p).take limit

/-- Modelled from the spec: `insert(collection, record) -> id` appends the
record to the collection; the store-generated identifier is supplied by the
caller of the model as a parameter. -/
def create_document {α : Type} (coll : List α) (r : α) : List α :=
  coll ++ [r]

/-- Modelled from the spec: the live handle's filtered update-by-identifier
(`update_one`) applies the update to the first record matching the filter. -/
def update_one {α : Type} (p : α → Bool) (f : α → α) : List α → List α
  | [] => []
  | x :: xs => if p x then f x :: xs else x :: update_one p f xs

/-! ## Availability query (src/main.py `check_availability`) -/

/-- Request body of `POST /api/availability` (Pydantic defaults included). -/
structure AvailabilityQuery where
  service_id : Option String := none
  staff_id : Option String := none
  date : Option String := none
  days : Int := 7
  limit : Nat := 20
  deriving Repr, DecidableEq

/-- The Mongo filter built by `check_availability`: `status = "open"`,
`service_id` / `staff_id` equality only when the query field is truthy
(present and non-empty), and `start_time` in `[startDay, endDay)`. -/
def availFilter (q : AvailabilityQuery) (startDay endDay : Int) (s : SlotRec) : Bool :=
  s.status == "open" &&
  (match q.service_id with
   | some sid => if sid = "" then true else s.service_id == some sid
   | none => true) &&
  (match q.staff_id with
   | some tid => if tid = "" then true else s.staff_id == some tid
   | none => true) &&
  (decide (startDay ≤ s.start_time) && decide (s.start_time < endDay))

/-- `check_availability`: parses the optional date (400 on failure), otherwise
reads open slots whose `start_time` lies in the window of `q.days` days
starting at the parsed instant (or `now` when no date is supplied). -/
def check_availability (q : AvailabilityQuery) (now : Int) (st : Store) :
    Except (Nat × String) (List SlotRec) :=
  match q.date with
  | some d =>
      match fromisoformat d with
      | none => .error (400, "Invalid date format, use YYYY-MM-DD")
      | some t =>
          .ok (get_documents st.scheduleslot (availFilter q t (t + q.days * 86400)) q.limit)
  | none =>
      .ok (get_documents st.scheduleslot (availFilter q now (now + q.days * 86400)) q.limit)

/-! ## Booking creation flow (src/main.py `create_booking_api`) -/

/-- Request body of `POST /api/bookings` (Pydantic defaults included). -/
structure BookingCreate where
  customer_id : String
  service_id : String
  staff_id : Option String := none
  start_time : Int
  end_time : Int
  notes : Option String := none
  source : Option String := some "ai"
  deriving Repr, DecidableEq

/-- The slot-lookup filter used by `create_booking_api`: exact equality of
`start_time` and `end_time` with the request's times, nothing else. -/
def slotMatchFilter (p : BookingCreate) (s : SlotRec) : Bool :=
  s.start_time == p.start_time && s.end_time == p.end_time

/-- The slot lookup: `get_documents("scheduleslot", {start_time, end_time}, limit=1)`. -/
def lookupSlots (p : BookingCreate) (st : Store) : List SlotRec :=
  get_documents st.scheduleslot (slotMatchFilter p) 1

/-- The booking document inserted by `create_booking_api`; `payload.source or
"ai"` is Python truthiness, so `None` and `""` both fall back to `"ai"`. -/
def mkBooking (p : BookingCreate) (slot : Option SlotRec) : BookingRec :=
  { customer_id := p.customer_id
    service_id := p.service_id
    staff_id := p.staff_id
    start_time := p.start_time
    end_time := p.end_time
    status := "confirmed"
    quantity := 1
    price_cents := 0
    source := match p.source with
              | some s => if s = "" then "ai" else s
              | none => "ai"
    notes := p.notes
    schedule_slot_id := match slot with
                        | some s => some (toString s.sid)
                        | none => none }

/-- The `update_one` document applied to the matched slot: `$inc remaining by
-1` (Mongo creates the field at `0 - 1` when absent) and `$set status` computed
from the matched snapshot's `remaining` (defaulted to 1 when absent). -/
def slotUpdate (snapshot : SlotRec) (r : SlotRec) : SlotRec :=
  { r with
    remaining := some (r.remaining.getD 0 - 1)
    status := if snapshot.remaining.getD 1 - 1 ≤ 0 then "booked" else "open" }

/-- Response body of a successful `POST /api/bookings`. -/
structure BookingResp where
  id : Nat
  status : String
  deriving Repr, DecidableEq

/-- `create_booking_api`.  `updOk` models whether the best-effort slot
decrement succeeds (its `try/except` swallows any failure); `newId` is the
store-generated identifier of the inserted booking.  Returns the HTTP outcome
paired with the final store state. -/
def create_booking_api (p : BookingCreate) (st : Store) (updOk : Bool) (newId : Nat) :
    Except (Nat × String) BookingResp × Store :=
  match lookupSlots p st with
  | slot :: _ =>
      if slot.status ≠ "open" ∨ slot.remaining.getD 1 ≤ 0 then
        (.error (400, "Slot not available"), st)
      else
        let st1 := { st with booking := create_document st.booking (mkBooking p (some slot)) }
        let st2 :=
          if updOk then
            { st1 with scheduleslot :=
                update_one (fun r => r.sid == slot.sid) (slotUpdate slot) st1.scheduleslot }
          else st1
        (.ok ⟨newId, "created"⟩, st2)
  | [] =>
      (.ok ⟨newId, "created"⟩,
       { st with booking := create_document st.booking (mkBooking p none) })

/-! ## Payment-link stub (src/main.py `create_payment_link`) -/

/-- Request body of `POST /api/payment-links`. -/
structure PaymentLinkCreate where
  customer_id : String
  amount_cents : Int
  description : Option String := none
  deriving Repr, DecidableEq

/-- The URL-safe base64 alphabet used by `secrets.token_urlsafe`. -/
def URLSAFE : List Char :=
  "ABCDEFGHIJKLMNOPQRSTUVWXYZabcdefghijklmnopqrstuvwxyz0123456789-_".toList

/-- Character for a six-bit value (0-63). -/
def b64c (n : Nat) : Char := URLSAFE.getD n ' '

/-- Unpadded URL-safe base64 of a byte list, as
`base64.urlsafe_b64encode(..).rstrip(b"=")` produces. -/
def b64urlEncode : List Nat → List Char
  | a :: b :: c :: rest =>
      b64c (a / 4) :: b64c (a % 4 * 16 + b / 16) ::
        b64c (b % 16 * 4 + c / 64) :: b64c (c % 64) :: b64urlEncode rest
  | [a, b] => [b64c (a / 4), b64c (a % 4 * 16 + b / 16), b64c (b % 16 * 4)]
  | [a] => [b64c (a / 4), b64c (a % 4 * 16)]
  | [] => []

/-- `secrets.token_urlsafe` applied to the given random bytes: the unpadded
URL-safe base64 text of those bytes. -/
def token_urlsafe (entropy : List Nat) : String :=
  String.mk (b64urlEncode entropy)

/-- Response body of `POST /api/payment-links`. -/
structure PaymentLinkResp where
  id : Nat
  token : String
  url : String
  deriving Repr, DecidableEq

/-- `create_payment_link`.  `entropy` is the random byte string drawn by
`secrets.token_urlsafe(12)` (12 bytes); `now` the creation instant; `newId`
the store-generated identifier of the inserted record. -/
def create_payment_link (p : PaymentLinkCreate) (entropy : List Nat) (now : Int)
    (newId : Nat) (st : Store) : PaymentLinkResp × Store :=
  let token := token_urlsafe entropy
  let url := "/pay/" ++ token
  let link : PaymentLinkRec :=
    { customer_id := p.customer_id
      amount_cents := p.amount_cents
      currency := "AUD"
      description := p.description
      status := "pending"
      token := token
      url := url
      expires_at := now + 7 * 86400 }
  (⟨newId, token, url⟩, { st with paymentlink := create_document st.paymentlink link })

/-- Six-bit value of a base64url character (position in the alphabet);
inverse of `b64c` on 0-63, used to state that the token keeps the full
entropy of the random bytes. -/
def b64dec (c : Char) : Nat := URLSAFE.indexOf c

/-- Decoder for unpadded URL-safe base64, the inverse of `b64urlEncode` on
byte lists whose length is a multiple of three. -/
def b64decode : List Char → List Nat
  | w :: x :: y :: z :: rest =>
      (b64dec w * 4 + b64dec x / 16) ::
      (b64dec x % 16 * 16 + b64dec y / 4) ::
      (b64dec y % 4 * 64 + b64dec z) :: b64decode rest
  | _ => []

/-! ## Helper lemmas -/

theorem b64c_mem {n : Nat} (h : n < 64) : b64c n ∈ URLSAFE := by
  have hall : ∀ m ∈ List.range 64, b64c m ∈ URLSAFE := by decide
  exact hall n (List.mem_range.mpr h)

theorem b64dec_b64c {n : Nat} (h : n < 64) : b64dec (b64c n) = n := by
  have hall : ∀ m ∈ List.range 64, b64dec (b64c m) = m := by decide
  exact hall n (List.mem_range.mpr h)

theorem b64urlEncode_urlsafe : ∀ (bs : List Nat), (∀ x ∈ bs, x < 256) →
    ∀ c ∈ b64urlEncode bs, c ∈ URLSAFE
  | [], _, c, hc => by simp [b64urlEncode] at hc
  | [a], hb, c, hc => by
      have ha : a < 256 := hb a (by simp)
      simp only [b64urlEncode, List.mem_cons, List.not_mem_nil, or_false] at hc
      rcases hc with h | h <;> subst h
      · exact b64c_mem (by omega)
      · exact b64c_mem (by omega)
  | [a, b], hb, c, hc => by
      have ha : a < 256 := hb a (by simp)
      have hb2 : b < 256 := hb b (by simp)
      simp only [b64urlEncode, List.mem_cons, List.not_mem_nil, or_false] at hc
      rcases hc with h | h | h <;> subst h
      · exact b64c_mem (by omega)
      · exact b64c_mem (by omega)
      · exact b64c_mem (by omega)
  | a :: b :: cc :: rest, hb, c, hc => by
      have ha : a < 256 := hb a (by simp)
      have hb2 : b < 256 := hb b (by simp)
      have hc2 : cc < 256 := hb cc (by simp)
      simp only [b64urlEncode, List.mem_cons] at hc
      rcases hc with h | h | h | h | h
      · subst h; exact b64c_mem (by omega)
      · subst h; exact b64c_mem (by omega)
      · subst h; exact b64c_mem (by omega)
      · subst h; exact b64c_mem (by omega)
      · exact b64urlEncode_urlsafe rest (fun x hx => hb x (by simp [hx])) c h

theorem b64decode_encode : ∀ (bs : List Nat), (∀ x ∈ bs, x < 256) →
    bs.length % 3 = 0 → b64decode (b64urlEncode bs) = bs
  | [], _, _ => rfl
  | [a], _, h => by simp at h
  | [a, b], _, h => by simp at h
  | a :: b :: c :: rest, hb, h => by
      have ha : a < 256 := hb a (by simp)
      have hbb : b < 256 := hb b (by simp)
      have hc : c < 256 := hb c (by simp)
      have ih := b64decode_encode rest (fun x hx => hb x (by simp [hx]))
        (by simp only [List.length_cons] at h; omega)
      simp only [b64urlEncode, b64decode,
        b64dec_b64c (show a / 4 < 64 by omega),
        b64dec_b64c (show a % 4 * 16 + b / 16 < 64 by omega),
        b64dec_b64c (show b % 16 * 4 + c / 64 < 64 by omega),
        b64dec_b64c (show c % 64 < 64 by omega), ih, List.cons.injEq]
      refine ⟨by omega, by omega, by omega, trivial⟩

theorem find?_update_one {α : Type} (p : α → Bool) (f : α → α) (l : List α) (a : α)
    (h : l.find? p = some a) (hf : p (f a) = p a) :
    (update_one p f l).find? p = some (f a) := by
  induction l with
  | nil => simp [List.find?] at h
  | cons x xs ih =>
    by_cases hx : p x
    · rw [List.find?_cons_of_pos _ hx] at h
      have hax : x = a := by injection h
      subst hax
      simp only [update_one, if_pos hx]
      exact List.find?_cons_of_pos _ (hf.trans hx)
    · rw [List.find?_cons_of_neg _ hx] at h
      simp only [update_one, if_neg hx]
      rw [List.find?_cons_of_neg _ hx]
      exact ih h

theorem mem_avail (q : AvailabilityQuery) (a b : Int) (lim : Nat) (l : List SlotRec)
    (s : SlotRec) (hs : s ∈ get_documents l (availFilter q a b) lim) :
    s.status = "open" ∧ a ≤ s.start_time ∧ s.start_time < b := by
  have h1 : s ∈ l.filter (availFilter q a b) := List.mem_of_mem_take hs
  have h2 := (List.mem_filter.mp h1).2
  simp only [availFilter, Bool.and_eq_true, beq_iff_eq, decide_eq_true_eq] at h2
  exact ⟨h2.1.1.1, h2.2⟩

/-! ## Claims about the booking creation flow -/

/-- C1: a booking request matching an open slot with `remaining = N > 0`
succeeds and, with the best-effort update applying, the matched slot's
`remaining` drops to `N - 1` and its status becomes `booked` when `N - 1 ≤ 0`
and stays `open` otherwise. -/
theorem claim_C1 (p : BookingCreate) (st : Store) (slot : SlotRec) (N : Int) (newId : Nat)
    (hmatch : lookupSlots p st = [slot])
    (hopen : slot.status = "open")
    (hrem : slot.remaining = some N)
    (hpos : 0 < N)
    (hfind : st.scheduleslot.find? (fun r => r.sid == slot.sid) = some slot) :
    ∃ st', create_booking_api p st true newId = (.ok ⟨newId, "created"⟩, st') ∧
      st'.scheduleslot.find? (fun r => r.sid == slot.sid) =
        some { slot with remaining := some (N - 1),
                         status := if N - 1 ≤ 0 then "booked" else "open" } := by
  have hcond : ¬(slot.status ≠ "open" ∨ slot.remaining.getD 1 ≤ 0) := by
    simp [hopen, hrem]
    omega
  have hrun : create_booking_api p st true newId =
      (.ok ⟨newId, "created"⟩,
       { st with
         booking := create_document st.booking (mkBooking p (some slot))
         scheduleslot :=
           update_one (fun r => r.sid == slot.sid) (slotUpdate slot) st.scheduleslot }) := by
    simp only [create_booking_api, hmatch]
    rw [if_neg hcond, if_pos trivial]
  refine ⟨_, hrun, ?_⟩
  have hf : (fun r => r.sid == slot.sid) (slotUpdate slot slot) =
      (fun r => r.sid == slot.sid) slot := by
    simp [slotUpdate]
  have hres := find?_update_one (fun r => r.sid == slot.sid) (slotUpdate slot)
    st.scheduleslot slot hfind hf
  show (update_one (fun r => r.sid == slot.sid) (slotUpdate slot) st.scheduleslot).find?
      (fun r => r.sid == slot.sid) = _
  rw [hres]
  simp [slotUpdate, hrem]

/-- C2: a booking request matching a slot that is not open or has no remaining
capacity is rejected with a 400 "Slot not available" error, no booking is
inserted, and the store is unchanged. -/
theorem claim_C2 (p : BookingCreate) (st : Store) (slot : SlotRec) (updOk : Bool) (newId : Nat)
    (hmatch : lookupSlots p st = [slot])
    (hbad : slot.status ≠ "open" ∨ slot.remaining.getD 1 ≤ 0) :
    create_booking_api p st updOk newId = (.error (400, "Slot not available"), st) := by
  simp only [create_booking_api, hmatch, if_pos hbad]

/-- C4: when a matched slot passes the availability check but the best-effort
slot decrement fails, the failure is swallowed: the inserted booking stays, the
slots are untouched, and the caller still receives the new id with status
"created". -/
theorem claim_C4 (p : BookingCreate) (st : Store) (slot : SlotRec) (newId : Nat)
    (hmatch : lookupSlots p st = [slot])
    (hopen : slot.status = "open")
    (hpos : 0 < slot.remaining.getD 1) :
    create_booking_api p st false newId =
      (.ok ⟨newId, "created"⟩,
       { st with booking := st.booking ++ [mkBooking p (some slot)] }) := by
  have hcond : ¬(slot.status ≠ "open" ∨ slot.remaining.getD 1 ≤ 0) := by
    simp [hopen]
    omega
  simp only [create_booking_api, hmatch, if_neg hcond]
  rfl

/-- C5: a booking request matching no slot is created unconditionally and
succeeds, with `schedule_slot_id = null`, status "confirmed", `price_cents = 0`,
the other fields copied from the request, and `source` defaulting to "ai". -/
theorem claim_C5 (p : BookingCreate) (st : Store) (updOk : Bool) (newId : Nat)
    (hnone : lookupSlots p st = []) :
    create_booking_api p st updOk newId =
      (.ok ⟨newId, "created"⟩, { st with booking := st.booking ++ [mkBooking p none] }) ∧
    (mkBooking p none).schedule_slot_id = none ∧
    (mkBooking p none).status = "confirmed" ∧
    (mkBooking p none).price_cents = 0 ∧
    (mkBooking p none).customer_id = p.customer_id ∧
    (mkBooking p none).service_id = p.service_id ∧
    (mkBooking p none).staff_id = p.staff_id ∧
    (mkBooking p none).start_time = p.start_time ∧
    (mkBooking p none).end_time = p.end_time ∧
    (mkBooking p none).notes = p.notes ∧
    (p.source = none → (mkBooking p none).source = "ai") ∧
    (∀ s0, p.source = some s0 → s0 ≠ "" → (mkBooking p none).source = s0) := by
  refine ⟨?_, ?_⟩
  · simp only [create_booking_api, hnone]
    rfl
  · refine ⟨rfl, rfl, rfl, rfl, rfl, rfl, rfl, rfl, rfl, ?_, ?_⟩
    · intro hsrc
      simp [mkBooking, hsrc]
    · intro s0 hsrc hne
      simp [mkBooking, hsrc, hne]

/-- C9: a booking request matching an open slot whose raw document lacks the
`remaining` field is accepted (remaining is read as 1), and the best-effort
update sets the slot's status to "booked" ($inc creates `remaining` at -1). -/
theorem claim_C9 (p : BookingCreate) (st : Store) (slot : SlotRec) (newId : Nat)
    (hmatch : lookupSlots p st = [slot])
    (hopen : slot.status = "open")
    (hmissing : slot.remaining = none)
    (hfind : st.scheduleslot.find? (fun r => r.sid == slot.sid) = some slot) :
    ∃ st', create_booking_api p st true newId = (.ok ⟨newId, "created"⟩, st') ∧
      st'.scheduleslot.find? (fun r => r.sid == slot.sid) =
        some { slot with remaining := some (-1), status := "booked" } := by
  have hcond : ¬(slot.status ≠ "open" ∨ slot.remaining.getD 1 ≤ 0) := by
    simp [hopen, hmissing]
  have hrun : create_booking_api p st true newId =
      (.ok ⟨newId, "created"⟩,
       { st with
         booking := create_document st.booking (mkBooking p (some slot))
         scheduleslot :=
           update_one (fun r => r.sid == slot.sid) (slotUpdate slot) st.scheduleslot }) := by
    simp only [create_booking_api, hmatch]
    rw [if_neg hcond, if_pos trivial]
  refine ⟨_, hrun, ?_⟩
  have hf : (fun r => r.sid == slot.sid) (slotUpdate slot slot) =
      (fun r => r.sid == slot.sid) slot := by
    simp [slotUpdate]
  have hres := find?_update_one (fun r => r.sid == slot.sid) (slotUpdate slot)
    st.scheduleslot slot hfind hf
  show (update_one (fun r => r.sid == slot.sid) (slotUpdate slot) st.scheduleslot).find?
      (fun r => r.sid == slot.sid) = _
  rw [hres]
  simp [slotUpdate, hmissing]

/-- C7: the booking slot lookup considers at most one slot, filters only on
exact equality of start and end time, and is insensitive to the slot's
`service_id` and `staff_id`, so a slot of an unrelated service or staff member
at the same timestamps matches. -/
theorem claim_C7 (p : BookingCreate) (st : Store) (s : SlotRec)
    (hs : s ∈ lookupSlots p st) :
    (lookupSlots p st).length ≤ 1 ∧
    s.start_time = p.start_time ∧ s.end_time = p.end_time ∧
    ∀ svc stf, slotMatchFilter p { s with service_id := svc, staff_id := stf } = true := by
  have hmem : s ∈ st.scheduleslot.filter (slotMatchFilter p) := List.mem_of_mem_take hs
  have hfil := (List.mem_filter.mp hmem).2
  simp only [slotMatchFilter, Bool.and_eq_true, beq_iff_eq] at hfil
  refine ⟨?_, hfil.1, hfil.2, ?_⟩
  · exact List.length_take_le 1 _
  · intro svc stf
    simp [slotMatchFilter, hfil.1, hfil.2]

/-! ## Claims about the availability query -/

/-- C6: an availability query with an unparseable date string yields a 400
validation error, and the outcome does not depend on the store (no read). -/
theorem claim_C6 (q : AvailabilityQuery) (now : Int) (st st' : Store) (d : String)
    (hd : q.date = some d) (hbad : fromisoformat d = none) :
    check_availability q now st = .error (400, "Invalid date format, use YYYY-MM-DD") ∧
    check_availability q now st = check_availability q now st' := by
  refine ⟨?_, ?_⟩ <;> simp only [check_availability, hd, hbad]

/-- C3 counterexample: with date string "2024-01-10T09:30" (parseable by
`datetime.fromisoformat`) and days = 1, the query returns an open slot whose
`start_time` lies outside `[midnight of 2024-01-10, midnight + 1 day)`, so the
window does not start at midnight of the supplied date. -/
theorem claim_C3_counterexample :
    fromisoformat "2024-01-10" = some 1704844800 ∧
    check_availability ⟨none, none, some "2024-01-10T09:30", 1, 20⟩ 0
        ⟨[⟨1, none, none, 1704949200, 1704951000, some 1, "open"⟩], [], []⟩ =
      .ok [⟨1, none, none, 1704949200, 1704951000, some 1, "open"⟩] ∧
    ¬((1704844800 : Int) ≤ 1704949200 ∧ (1704949200 : Int) < 1704844800 + 1 * 86400) := by
  exact ⟨by rfl, by rfl, by decide⟩

/-- C3 (amended): every slot returned by a successful availability query has
status "open" and `start_time` in `[window_start, window_start + days)`, where
`window_start` is the instant parsed from the supplied date string (midnight
only when the string is a bare calendar date) or the current instant if the
date is omitted. -/
theorem claim_C3_amended (q : AvailabilityQuery) (now : Int) (st : Store)
    (slots : List SlotRec)
    (h : check_availability q now st = .ok slots) (s : SlotRec) (hs : s ∈ slots) :
    s.status = "open" ∧
    ((q.date = none ∧ now ≤ s.start_time ∧ s.start_time < now + q.days * 86400) ∨
     (∃ d t, q.date = some d ∧ fromisoformat d = some t ∧
        t ≤ s.start_time ∧ s.start_time < t + q.days * 86400)) := by
  cases hq : q.date with
  | none =>
    simp only [check_availability, hq, Except.ok.injEq] at h
    subst h
    have hm := mem_avail q now (now + q.days * 86400) q.limit st.scheduleslot s hs
    exact ⟨hm.1, Or.inl ⟨rfl, hm.2⟩⟩
  | some d =>
    simp only [check_availability, hq] at h
    cases hp : fromisoformat d with
    | none =>
      simp only [hp] at h
      exact absurd h (by simp)
    | some t =>
      simp only [hp, Except.ok.injEq] at h
      subst h
      have hm := mem_avail q t (t + q.days * 86400) q.limit st.scheduleslot s hs
      exact ⟨hm.1, Or.inr ⟨d, t, rfl, hp, hm.2⟩⟩

/-- C10: a full ISO-8601 datetime date string such as "2024-01-10T09:30" is
accepted by the availability query (no 400), and the window starts at that
exact instant (09:30, i.e. midnight + 34200 seconds), not at midnight. -/
theorem claim_C10 (st : Store) (now : Int) :
    fromisoformat "2024-01-10T09:30" = some 1704879000 ∧
    (1704879000 : Int) = 1704844800 + (9 * 60 + 30) * 60 ∧
    fromisoformat "2024-01-10" = some 1704844800 ∧
    ∃ slots,
      check_availability ⟨none, none, some "2024-01-10T09:30", 7, 20⟩ now st = .ok slots ∧
      ∀ s ∈ slots, s.status = "open" ∧
        1704879000 ≤ s.start_time ∧ s.start_time < 1704879000 + 7 * 86400 := by
  have hpar : fromisoformat "2024-01-10T09:30" = some 1704879000 := by rfl
  have hck : check_availability ⟨none, none, some "2024-01-10T09:30", 7, 20⟩ now st =
      .ok (get_documents st.scheduleslot
        (availFilter ⟨none, none, some "2024-01-10T09:30", 7, 20⟩ 1704879000
          (1704879000 + 7 * 86400)) 20) := by
    simp only [check_availability, hpar]
  refine ⟨hpar, by norm_num, by rfl,
    get_documents st.scheduleslot
      (availFilter ⟨none, none, some "2024-01-10T09:30", 7, 20⟩ 1704879000
        (1704879000 + 7 * 86400)) 20, hck, ?_⟩
  intro s hs
  exact mem_avail ⟨none, none, some "2024-01-10T09:30", 7, 20⟩ 1704879000
    (1704879000 + 7 * 86400) 20 st.scheduleslot s hs

/-! ## Claim about the payment-link stub -/

/-- C8: creating a payment link persists a record with status "pending",
currency "AUD", `url = "/pay/" ++ token`, `expires_at` = creation time plus
exactly 7 days, and returns id, token and url; the token is the URL-safe
encoding of the 12 random bytes and keeps their full entropy (the encoding is
injective on 12-byte inputs). -/
theorem claim_C8 (p : PaymentLinkCreate) (entropy : List Nat) (now : Int) (newId : Nat)
    (st : Store)
    (hlen : entropy.length = 12) (hbytes : ∀ x ∈ entropy, x < 256) :
    create_payment_link p entropy now newId st =
      ({ id := newId, token := token_urlsafe entropy,
         url := "/pay/" ++ token_urlsafe entropy },
       { st with paymentlink := st.paymentlink ++
          [{ customer_id := p.customer_id
             amount_cents := p.amount_cents
             currency := "AUD"
             description := p.description
             status := "pending"
             token := token_urlsafe entropy
             url := "/pay/" ++ token_urlsafe entropy
             expires_at := now + 7 * 86400 }] }) ∧
    (∀ c ∈ (token_urlsafe entropy).toList, c ∈ URLSAFE) ∧
    (∀ entropy2, entropy2.length = 12 → (∀ x ∈ entropy2, x < 256) →
      token_urlsafe entropy2 = token_urlsafe entropy → entropy2 = entropy) := by
  refine ⟨rfl, ?_, ?_⟩
  · intro c hc
    exact b64urlEncode_urlsafe entropy hbytes c hc
  · intro e2 hl2 hb2 heq
    have henc : b64urlEncode e2 = b64urlEncode entropy := congrArg String.data heq
    calc e2 = b64decode (b64urlEncode e2) := (b64decode_encode e2 hb2 (by omega)).symm
      _ = b64decode (b64urlEncode entropy) := by rw [henc]
      _ = entropy := b64decode_encode entropy hbytes (by omega)

/-! ## Witnesses: the claim theorems applied at concrete inputs -/

theorem claim_C1_witness :
    ∃ st', create_booking_api ⟨"c1", "s1", none, 100, 200, none, some "ai"⟩
        ⟨[⟨1, none, none, 100, 200, some 1, "open"⟩], [], []⟩ true 5 =
      (.ok ⟨5, "created"⟩, st') ∧
      st'.scheduleslot.find? (fun r => r.sid == 1) =
        some ⟨1, none, none, 100, 200, some 0, "booked"⟩ :=
  claim_C1 ⟨"c1", "s1", none, 100, 200, none, some "ai"⟩
    ⟨[⟨1, none, none, 100, 200, some 1, "open"⟩], [], []⟩
    ⟨1, none, none, 100, 200, some 1, "open"⟩ 1 5 rfl rfl rfl (by norm_num) rfl

theorem claim_C2_witness :
    create_booking_api ⟨"c1", "s1", none, 100, 200, none, some "ai"⟩
        ⟨[⟨2, none, none, 100, 200, some 0, "open"⟩], [], []⟩ true 6 =
      (.error (400, "Slot not available"),
       ⟨[⟨2, none, none, 100, 200, some 0, "open"⟩], [], []⟩) :=
  claim_C2 ⟨"c1", "s1", none, 100, 200, none, some "ai"⟩
    ⟨[⟨2, none, none, 100, 200, some 0, "open"⟩], [], []⟩
    ⟨2, none, none, 100, 200, some 0, "open"⟩ true 6 rfl (Or.inr (by decide))

theorem claim_C3_amended_witness :
    ("open" : String) = "open" ∧
    (((some "2024-01-10" : Option String) = none ∧ (0 : Int) ≤ 1704850000 ∧
        (1704850000 : Int) < 0 + 1 * 86400) ∨
     (∃ d t, (some "2024-01-10" : Option String) = some d ∧ fromisoformat d = some t ∧
        t ≤ 1704850000 ∧ (1704850000 : Int) < t + 1 * 86400)) :=
  claim_C3_amended ⟨none, none, some "2024-01-10", 1, 20⟩ 0
    ⟨[⟨1, none, none, 1704850000, 1704851000, some 1, "open"⟩], [], []⟩
    [⟨1, none, none, 1704850000, 1704851000, some 1, "open"⟩] rfl
    ⟨1, none, none, 1704850000, 1704851000, some 1, "open"⟩ (by decide)

theorem claim_C4_witness :
    create_booking_api ⟨"c1", "s1", none, 100, 200, none, some "ai"⟩
        ⟨[⟨3, none, none, 100, 200, some 2, "open"⟩], [], []⟩ false 7 =
      (.ok ⟨7, "created"⟩,
       ⟨[⟨3, none, none, 100, 200, some 2, "open"⟩],
        [mkBooking ⟨"c1", "s1", none, 100, 200, none, some "ai"⟩
          (some ⟨3, none, none, 100, 200, some 2, "open"⟩)], []⟩) :=
  claim_C4 ⟨"c1", "s1", none, 100, 200, none, some "ai"⟩
    ⟨[⟨3, none, none, 100, 200, some 2, "open"⟩], [], []⟩
    ⟨3, none, none, 100, 200, some 2, "open"⟩ 7 rfl rfl (by decide)

theorem claim_C5_witness :
    create_booking_api ⟨"c9", "s9", none, 300, 400, none, none⟩ ⟨[], [], []⟩ true 8 =
      (.ok ⟨8, "created"⟩,
       ⟨[], [mkBooking ⟨"c9", "s9", none, 300, 400, none, none⟩ none], []⟩) ∧
    (mkBooking ⟨"c9", "s9", none, 300, 400, none, none⟩ none).schedule_slot_id = none ∧
    (mkBooking ⟨"c9", "s9", none, 300, 400, none, none⟩ none).status = "confirmed" ∧
    (mkBooking ⟨"c9", "s9", none, 300, 400, none, none⟩ none).price_cents = 0 ∧
    (mkBooking ⟨"c9", "s9", none, 300, 400, none, none⟩ none).customer_id = "c9" ∧
    (mkBooking ⟨"c9", "s9", none, 300, 400, none, none⟩ none).service_id = "s9" ∧
    (mkBooking ⟨"c9", "s9", none, 300, 400, none, none⟩ none).staff_id = none ∧
    (mkBooking ⟨"c9", "s9", none, 300, 400, none, none⟩ none).start_time = 300 ∧
    (mkBooking ⟨"c9", "s9", none, 300, 400, none, none⟩ none).end_time = 400 ∧
    (mkBooking ⟨"c9", "s9", none, 300, 400, none, none⟩ none).notes = none ∧
    ((none : Option String) = none →
      (mkBooking ⟨"c9", "s9", none, 300, 400, none, none⟩ none).source = "ai") ∧
    (∀ s0, (none : Option String) = some s0 → s0 ≠ "" →
      (mkBooking ⟨"c9", "s9", none, 300, 400, none, none⟩ none).source = s0) :=
  claim_C5 ⟨"c9", "s9", none, 300, 400, none, none⟩ ⟨[], [], []⟩ true 8 rfl

theorem claim_C6_witness :
    check_availability ⟨none, none, some "not-a-date", 7, 20⟩ 0 ⟨[], [], []⟩ =
      .error (400, "Invalid date format, use YYYY-MM-DD") ∧
    check_availability ⟨none, none, some "not-a-date", 7, 20⟩ 0 ⟨[], [], []⟩ =
      check_availability ⟨none, none, some "not-a-date", 7, 20⟩ 0
        ⟨[⟨1, none, none, 0, 1, some 1, "open"⟩], [], []⟩ :=
  claim_C6 ⟨none, none, some "not-a-date", 7, 20⟩ 0 ⟨[], [], []⟩
    ⟨[⟨1, none, none, 0, 1, some 1, "open"⟩], [], []⟩ "not-a-date" rfl rfl

theorem claim_C7_witness :
    (lookupSlots ⟨"c1", "svcA", none, 100, 200, none, some "ai"⟩
      ⟨[⟨4, some "svcB", some "staffZ", 100, 200, some 1, "open"⟩], [], []⟩).length ≤ 1 ∧
    (100 : Int) = 100 ∧ (200 : Int) = 200 ∧
    ∀ svc stf, slotMatchFilter ⟨"c1", "svcA", none, 100, 200, none, some "ai"⟩
      { (⟨4, some "svcB", some "staffZ", 100, 200, some 1, "open"⟩ : SlotRec) with
        service_id := svc, staff_id := stf } = true :=
  claim_C7 ⟨"c1", "svcA", none, 100, 200, none, some "ai"⟩
    ⟨[⟨4, some "svcB", some "staffZ", 100, 200, some 1, "open"⟩], [], []⟩
    ⟨4, some "svcB", some "staffZ", 100, 200, some 1, "open"⟩ (by decide)

theorem claim_C8_witness :
    create_payment_link ⟨"cust", 5000, none⟩ [0, 1, 2, 3, 4, 5, 6, 7, 8, 9, 10, 11]
        0 7 ⟨[], [], []⟩ =
      ({ id := 7, token := token_urlsafe [0, 1, 2, 3, 4, 5, 6, 7, 8, 9, 10, 11],
         url := "/pay/" ++ token_urlsafe [0, 1, 2, 3, 4, 5, 6, 7, 8, 9, 10, 11] },
       ⟨[], [],
        [{ customer_id := "cust"
           amount_cents := 5000
           currency := "AUD"
           description := none
           status := "pending"
           token := token_urlsafe [0, 1, 2, 3, 4, 5, 6, 7, 8, 9, 10, 11]
           url := "/pay/" ++ token_urlsafe [0, 1, 2, 3, 4, 5, 6, 7, 8, 9, 10, 11]
           expires_at := 0 + 7 * 86400 }]⟩) ∧
    (∀ c ∈ (token_urlsafe [0, 1, 2, 3, 4, 5, 6, 7, 8, 9, 10, 11]).toList, c ∈ URLSAFE) ∧
    (∀ entropy2, entropy2.length = 12 → (∀ x ∈ entropy2, x < 256) →
      token_urlsafe entropy2 = token_urlsafe [0, 1, 2, 3, 4, 5, 6, 7, 8, 9, 10, 11] →
      entropy2 = [0, 1, 2, 3, 4, 5, 6, 7, 8, 9, 10, 11]) :=
  claim_C8 ⟨"cust", 5000, none⟩ [0, 1, 2, 3, 4, 5, 6, 7, 8, 9, 10, 11] 0 7
    ⟨[], [], []⟩ rfl (by decide)

theorem claim_C9_witness :
    ∃ st', create_booking_api ⟨"c2", "s2", none, 100, 200, none, some "ai"⟩
        ⟨[⟨9, none, none, 100, 200, none, "open"⟩], [], []⟩ true 4 =
      (.ok ⟨4, "created"⟩, st') ∧
      st'.scheduleslot.find? (fun r => r.sid == 9) =
        some ⟨9, none, none, 100, 200, some (-1), "booked"⟩ :=
  claim_C9 ⟨"c2", "s2", none, 100, 200, none, some "ai"⟩
    ⟨[⟨9, none, none, 100, 200, none, "open"⟩], [], []⟩
    ⟨9, none, none, 100, 200, none, "open"⟩ 4 rfl rfl rfl rfl

theorem claim_C10_witness :
    fromisoformat "2024-01-10T09:30" = some 1704879000 ∧
    (1704879000 : Int) = 1704844800 + (9 * 60 + 30) * 60 ∧
    fromisoformat "2024-01-10" = some 1704844800 ∧
    ∃ slots,
      check_availability ⟨none, none, some "2024-01-10T09:30", 7, 20⟩ 0 ⟨[], [], []⟩ =
        .ok slots ∧
      ∀ s ∈ slots, s.status = "open" ∧
        1704879000 ≤ s.start_time ∧ s.start_time < 1704879000 + 7 * 86400 :=
  claim_C10 ⟨[], [], []⟩ 0

end FacilityAI
